import Mathlib

/-!
Verification model of the Fights-In-The-Forest game server
(`PythonProject3/events/game_handlers.py`, `PythonProject3/events/socket_handlers.py`,
`PythonProject3/routes/room_routes.py`).

The room document stored in the database is modelled by `Room`; Python dicts
keyed by strings are modelled by association lists (`dictLookup` / `dictInsert` /
`dictErase` mirror `d[k]`, `d[k] = v`, `del d[k]`; dict keys are unique, and
insertion order is preserved, matching Python 3.7+ semantics).

The value stored under `character_health` is either the plain mapping or the
wrapper produced by `encrypt_for_database` (a dict with the two keys
`"encrypted"` and `"data"`); this distinction is observable to the Python code
(`in` tests on the stored dict see the wrapper keys, not the usernames), so it
is modelled explicitly by `HealthStore`.

Handlers are modelled as pure functions from the stored room document (plus the
process-local state they consult: the `active_rooms` client list for the room,
the `active_turn_timers` entry for the room) to a `HandlerOutcome` recording the
reply sent to the requester, the stored document after the handler ran, whether
any database write happened, the events broadcast to the room, and the turn
timer entry afterwards.  Wall-clock instants are threaded as a `now : Nat`
parameter.  Encryption of chat entries and of network payloads is semantically
the identity from the state machine's point of view and is not modelled;
the `character_health` wrapper is modelled because membership tests in
`remove_player` observe it.
-/

/-- Python `d.get(k)` / `d[k]` lookup on a string-keyed dict. -/
def dictLookup {α : Type} (d : List (String × α)) (k : String) : Option α :=
  (d.find? (fun kv => kv.fst == k)).map Prod.snd

/-- Python `d[k] = v`: overwrite the existing binding in place, else append. -/
def dictInsert {α : Type} : List (String × α) → String → α → List (String × α)
  | [], k, v => [(k, v)]
  | kv :: rest, k, v =>
      if kv.fst == k then (k, v) :: rest else kv :: dictInsert rest k v

/-- Python `del d[k]`: remove the binding for `k` (dict keys are unique). -/
def dictErase {α : Type} : List (String × α) → String → List (String × α)
  | [], _ => []
  | kv :: rest, k => if kv.fst == k then rest else kv :: dictErase rest k

/-- A chat-log record `{message, effect?, turn}` (entry-level encryption is
identity from the state machine's point of view and is not modelled). -/
structure ChatEntry where
  message : String
  effect : Option String := none
  turn : Nat
deriving Repr, DecidableEq

/-- The stored `character_health` value: either the plain username-to-health
dict, or the `{"encrypted": True, "data": ...}` wrapper written by
`encrypt_for_database` (whose payload decrypts back to the plain dict). -/
inductive HealthStore where
  | plain (m : List (String × Int))
  | enc (m : List (String × Int))
deriving Repr, DecidableEq

/-- `decrypt_from_database` when applied to the stored health value (and the
identity on an already-plain dict), as every handler does before reading. -/
def decryptHealth : HealthStore → List (String × Int)
  | .plain m => m
  | .enc m => m

/-- Python `username in room_data['character_health']` on the STORED value:
on the encrypted wrapper this sees only the wrapper keys. -/
def healthStoreMember (hs : HealthStore) (u : String) : Bool :=
  match hs with
  | .plain m => (dictLookup m u).isSome
  | .enc _ => u == "encrypted" || u == "data"

/-- The `match_state` sub-document.  `current_player` / `next_player` are
`Option` because the Python code tests for key presence
(`'current_player' in room_data['game_state']`). -/
structure GameState where
  status : String
  turn : Nat
  player_order : List String
  current_player : Option String := none
  next_player : Option String := none
  winner : Option String := none
deriving Repr, DecidableEq

/-- The room document (fields initialised by `create_room`, always present). -/
structure Room where
  players : List String
  group1 : List (String × String)
  group2 : List (String × String)
  ready_players : List String
  character_health : HealthStore
  chat_log : List ChatEntry
  game_state : GameState
deriving Repr, DecidableEq

/-- The condition under which the scan in `find_next_active_player` (and the
filter in `next_turn`) keeps a player:
`if next_player and next_player in character_health: if character_health[next_player] > 0`. -/
def aliveIn (health : List (String × Int)) (p : String) : Bool :=
  p != "" &&
    (match dictLookup health p with
     | some h => decide (0 < h)
     | none => false)

/-- Index computed by `(current_index + i) % len(player_order)`;
`current_index` may be `-1` (Python `list.index` raised `ValueError`). -/
def nextIdx (ci : Int) (i : Nat) (n : Nat) : Nat :=
  ((ci + (i : Int)).emod (n : Int)).toNat

/-- `find_next_active_player(room_code, current_player, player_order)`
(game_handlers.py lines 45-84).  The function re-reads the room document from
the database; the snapshot it sees is passed as `snapshot` (`none` models a
missing document). -/
def findNextActivePlayer (snapshot : Option Room) (current : String)
    (order : List String) : String :=
  if order.length ≤ 1 then ""
  else
    match snapshot with
    | none => order.getD 0 ""
    | some room =>
      let health := decryptHealth room.character_health
      let ci : Int :=
        match order.indexOf? current with
        | some k => (k : Int)
        | none => -1
      let n := order.length
      match (List.range' 1 n).find?
          (fun i => aliveIn health (order.getD (nextIdx ci i n) "")) with
      | some i => order.getD (nextIdx ci i n) ""
      | none => order.getD (nextIdx ci 1 n) ""

/-- `next_turn(room_code)` (game_handlers.py lines 126-193).  Returns the
document written back (or `none` when the function returned without writing)
together with the `(current_player, next_player)` pair it returned.  The
re-read that `find_next_active_player` performs still sees the stored document,
which holds the same health data. -/
def nextTurn (stored : Room) : Option Room × Option (String × String) :=
  if stored.game_state.status = "started" then
    let turn2 := stored.game_state.turn + 1
    let order := stored.game_state.player_order
    if order = [] then (none, none)
    else
      let health := decryptHealth stored.character_health
      let order2 := order.filter (fun p => aliveIn health p)
      if order2 = [] then (none, none)
      else
        let current :=
          match stored.game_state.next_player with
          | some np => np
          | none => order2.getD (turn2 % order2.length) ""
        let next := findNextActivePlayer (some stored) current order2
        let written : Room :=
          { stored with
            character_health := .enc health
            game_state :=
              { stored.game_state with
                turn := turn2
                player_order := order2
                current_player := some current
                next_player := some next } }
        (some written, some (current, next))
  else (none, none)

/-- The `active_turn_timers[room_code]` entry written by `start_turn_timer`
(game_handlers.py lines 87-123).  No actual timer object is ever stored under a
`'timer'` key, so the `timer.cancel()` calls in the handlers are no-ops. -/
structure TimerEntry where
  current_player : Option String
  next_player : Option String
  start_time : Nat
  end_time : Nat
deriving Repr, DecidableEq

/-- Emit one event to every client `{sid, username}` of `active_rooms[room]`
that has both fields non-empty (`if client_username and sid:`); records
`(event, recipient username)` pairs. -/
def broadcastTo (clients : List (String × String)) (event : String) :
    List (String × String) :=
  clients.filterMap (fun c =>
    if c.snd ≠ "" ∧ c.fst ≠ "" then some (event, c.snd) else none)

/-- Result of one socket handler invocation: the reply to the requester
(`some msg` is the `{'error': msg}` payload, `none` is `{'success': True}` or
no reply), the stored room document afterwards, whether any database write
happened, the events broadcast into the room, and the turn-timer entry for the
room afterwards. -/
structure HandlerOutcome where
  response : Option String
  room : Option Room
  wrote : Bool
  broadcasts : List (String × String)
  timer : Option TimerEntry
deriving Repr, DecidableEq

/-- Python `all([f1, ..., fn])` over request string fields (truthiness of a
string is non-emptiness). -/
def pyAll (fields : List String) : Bool :=
  fields.all (fun f => f != "")

/-- The health update of `on_make_move` (game_handlers.py lines 357-361):
`max(0, health - value)` for an attack (`type == 'a'`), otherwise
`min(50, health + value)`. -/
def applyMoveHealth (move_type : String) (health value : Int) : Int :=
  if move_type = "a" then max 0 (health - value) else min 50 (health + value)

/-- The group-defeat loop of `on_make_move` (lines 390-402): the flag stays
`True` unless some member has a `character_health` entry with value `> 0`. -/
def groupAllDead (group : List (String × String)) (health : List (String × Int)) : Bool :=
  !(group.any (fun kv =>
    match dictLookup health kv.fst with
    | some h => decide (0 < h)
    | none => false))

/-- The round-limit winner of `on_make_move` (lines 417-432): sum each health
entry into the group whose KEYS (usernames) contain the entry's key. -/
def roundLimitWinnerU (health : List (String × Int))
    (g1 g2 : List (String × String)) : String :=
  let sums := health.foldl
    (fun (acc : Int × Int) kv =>
      if (g1.map Prod.fst).contains kv.fst then (acc.fst + kv.snd, acc.snd)
      else if (g2.map Prod.fst).contains kv.fst then (acc.fst, acc.snd + kv.snd)
      else acc) (0, 0)
  if sums.fst > sums.snd then "group1"
  else if sums.snd > sums.fst then "group2"
  else "tie"

/-- The round-limit winner of `on_skip_turn` (lines 590-617): sum each health
entry into the group whose VALUES (character names) contain the entry's key. -/
def roundLimitWinnerC (health : List (String × Int))
    (g1 g2 : List (String × String)) : String :=
  let sums := health.foldl
    (fun (acc : Int × Int) kv =>
      if (g1.map Prod.snd).contains kv.fst then (acc.fst + kv.snd, acc.snd)
      else if (g2.map Prod.snd).contains kv.fst then (acc.fst, acc.snd + kv.snd)
      else acc) (0, 0)
  if sums.fst > sums.snd then "group1"
  else if sums.snd > sums.fst then "group2"
  else "tie"

/-- The game-over decision of `on_make_move` (lines 405-432): group1 all dead
beats group2 all dead beats the round limit `turn >= len(character_health) * 15`. -/
def evaluateWin (turn : Nat) (g1 g2 : List (String × String))
    (health : List (String × Int)) : Option String :=
  if groupAllDead g1 health then some "group2"
  else if groupAllDead g2 health then some "group1"
  else if health.length * 15 ≤ turn then some (roundLimitWinnerU health g1 g2)
  else none

/-- The current player as both `on_make_move` (lines 301-304) and
`on_skip_turn` (lines 562-565) compute it: the cached
`game_state['current_player']` if the key is present, else
`player_order[turn % len(player_order)]`. -/
def currentPlayerOf (room : Room) : String :=
  match room.game_state.current_player with
  | some c => c
  | none =>
      room.game_state.player_order.getD
        (room.game_state.turn % room.game_state.player_order.length) ""

/-- Python `a in b` on strings (substring containment), as used by
`if target_player in room_data['game_state']['next_player']` (line 385). -/
def substrB (a b : String) : Bool :=
  decide (a.data <:+: b.data)

/-- `check_all_ready(room_data, room_code)` (socket_handlers.py lines 17-65).
`random.shuffle` may produce any permutation; the permutation actually drawn is
passed as `shuffled`.  Returns the started room document written back, or
`none` when some start condition failed. -/
def checkAllReady (room : Room) (shuffled : List String) : Option Room :=
  if room.players = [] then none
  else if room.players.length < 2 then none
  else if room.group1.length < 1 ∨ room.group2.length < 1 then none
  else if ¬ (room.ready_players.all (fun x => room.players.contains x) ∧
             room.players.all (fun x => room.ready_players.contains x)) then none
  else
    some { room with
      character_health := .enc (decryptHealth room.character_health)
      game_state := { room.game_state with
        status := "started"
        player_order := shuffled } }

/-- `start_first_turn(room_code)` (game_handlers.py lines 13-42): sets
`current_player = player_order[turn % len(player_order)]` and a fresh
`next_player`, writes the document and arms the turn timer. -/
def startFirstTurn (stored : Option Room) (now : Nat) :
    Option Room × Option TimerEntry :=
  match stored with
  | none => (none, none)
  | some room =>
    if room.game_state.status = "started" then
      let order := room.game_state.player_order
      if order = [] then (none, none)
      else
        let current := order.getD (room.game_state.turn % order.length) ""
        let next := findNextActivePlayer (some room) current order
        let written :=
          { room with game_state :=
            { room.game_state with
              current_player := some current
              next_player := some next } }
        (some written,
         some { current_player := some current, next_player := some next,
                start_time := now, end_time := now + 60 })
    else (none, none)

/-- The decrypted fields of a `make_move` request
(`username, ability, target_user, target_name, type, value, room_code, character`). -/
structure MoveRequest where
  username : String
  ability : String
  target_user : String
  target_name : String
  move_type : String
  value : Int
  room_code : String
  character : String
deriving Repr, DecidableEq

/-- The decrypted fields of a `skip_turn` request. -/
structure SkipRequest where
  username : String
  room_code : String
deriving Repr, DecidableEq

/-- `on_make_move(data)` (game_handlers.py lines 249-506).

* `stored` is the database document for the request's room (`none`: not found);
* `clients` is `active_rooms[room_code]` as `(sid, username)` pairs (`none`:
  the key is absent, making the broadcast loops raise `KeyError`);
* `timer` is the `active_turn_timers[room_code]` entry (its `.get('timer')` is
  always `None`, so the initial cancel changes nothing);
* `chatOf` is the ability collection lookup, giving the `chat` template of an
  ability record (`none`: no such ability).

Writes happen in source order: the defeat branch (lines 382-387) consults the
stale stored document through `find_next_active_player`, the updated document
is written (line 465), and only then does `next_turn` re-read and write again.
In the game-over branch the `active_rooms[room_code]` broadcast (line 452)
precedes the write, so a missing key aborts before any write; in the
game-continues branch it follows the writes.  Uncaught exceptions
(`KeyError`) fall into the generic `except` and return an error payload. -/
def makeMove (stored : Option Room) (clients : Option (List (String × String)))
    (timer : Option TimerEntry) (chatOf : String → Option String) (now : Nat)
    (req : MoveRequest) : HandlerOutcome :=
  if pyAll [req.username, req.ability, req.target_name, req.move_type,
            req.room_code, req.character] = false then
    { response := some "Missing required fields", room := stored, wrote := false,
      broadcasts := [], timer := timer }
  else
    match stored with
    | none =>
      { response := some "Room not found", room := none, wrote := false,
        broadcasts := [], timer := timer }
    | some room0 =>
      let health0 := decryptHealth room0.character_health
      let room1 := { room0 with character_health := .plain health0 }
      let current_turn := room1.game_state.turn
      let order := room1.game_state.player_order
      if order = [] then
        { response := some "No players in game order", room := some room0,
          wrote := false, broadcasts := [], timer := timer }
      else if currentPlayerOf room1 ≠ req.username then
        { response := some "Not your turn", room := some room0, wrote := false,
          broadcasts := [], timer := timer }
      else
        match chatOf req.ability with
        | none =>
          { response := some "Ability not found", room := some room0,
            wrote := false, broadcasts := [], timer := timer }
        | some template =>
          let chat_message :=
            (template.replace "[player1]" req.target_name).replace
              "[player2]" req.character
          let inG1 := (room1.group1.map Prod.fst).contains req.target_user
          let inG2 := (room1.group2.map Prod.fst).contains req.target_user
          if inG1 = false ∧ inG2 = false then
            { response := some "Target not found", room := some room0,
              wrote := false, broadcasts := [], timer := timer }
          else
            let health1 :=
              if (dictLookup health0 req.target_user).isSome then health0
              else dictInsert health0 req.target_user 50
            let current_health := (dictLookup health1 req.target_user).getD 0
            let new_health := applyMoveHealth req.move_type current_health req.value
            let effect :=
              if req.move_type = "a" then
                req.target_name ++ " took " ++ toString req.value ++ " damage!"
              else
                req.target_name ++ " healed for " ++ toString req.value ++ " health!"
            let health2 := dictInsert health1 req.target_user new_health
            let chat2 := room1.chat_log ++
              [{ message := chat_message, effect := some effect, turn := current_turn }]
            -- lines 382-387: defeat handling; `room_data['game_state']['next_player']`
            -- raises KeyError when the key is absent.
            let defeat : Option (Option String × List String) :=
              if new_health ≤ 0 then
                if req.target_user ≠ "" ∧ req.target_user ∈ order then
                  match room1.game_state.next_player with
                  | none => none
                  | some np =>
                    let np2 :=
                      if substrB req.target_user np = true then
                        findNextActivePlayer (some room0) (currentPlayerOf room1) order
                      else np
                    some (some np2, order.erase req.target_user)
                else some (room1.game_state.next_player, order)
              else some (room1.game_state.next_player, order)
            match defeat with
            | none =>
              { response := some "Error making move: KeyError next_player",
                room := some room0, wrote := false, broadcasts := [], timer := timer }
            | some (np1, order1) =>
              let room2 := { room1 with
                chat_log := chat2
                game_state := { room1.game_state with
                  next_player := np1, player_order := order1 } }
              match evaluateWin current_turn room2.group1 room2.group2 health2 with
              | some w =>
                -- game over: broadcast (line 452, may KeyError) precedes the write
                match clients with
                | none =>
                  { response := some "Error making move: KeyError active_rooms",
                    room := some room0, wrote := false, broadcasts := [],
                    timer := timer }
                | some cs =>
                  let roomF := { room2 with
                    character_health := .enc health2
                    chat_log := room2.chat_log ++
                      [{ message := "Game over! Winner: " ++ w, turn := current_turn }]
                    game_state := { room2.game_state with
                      status := "ended", winner := some w } }
                  { response := none, room := some roomF, wrote := true,
                    broadcasts := broadcastTo cs "game_ended", timer := timer }
              | none =>
                let roomW := { room2 with character_health := .enc health2 }
                let step := nextTurn roomW
                let roomAfter := step.fst.getD roomW
                match clients with
                | none =>
                  { response := some "Error making move: KeyError active_rooms",
                    room := some roomAfter, wrote := true, broadcasts := [],
                    timer := timer }
                | some cs =>
                  let cn := step.snd
                  { response := none, room := some roomAfter, wrote := true,
                    broadcasts := broadcastTo cs "move_made" ++
                      broadcastTo cs "turn_started",
                    timer := some
                      { current_player := cn.map Prod.fst,
                        next_player := cn.map Prod.snd,
                        start_time := now, end_time := now + 60 } }

/-- `on_skip_turn(data)` (game_handlers.py lines 509-682).  Same conventions as
`makeMove`.  The round limit is the hard-coded `current_turn >= 10` and the
winner sums use `roundLimitWinnerC` (character-name matching). -/
def skipTurn (stored : Option Room) (clients : Option (List (String × String)))
    (timer : Option TimerEntry) (now : Nat) (req : SkipRequest) : HandlerOutcome :=
  if pyAll [req.username, req.room_code] = false then
    { response := some "Missing required fields", room := stored, wrote := false,
      broadcasts := [], timer := timer }
  else
    match stored with
    | none =>
      { response := some "Room not found", room := none, wrote := false,
        broadcasts := [], timer := timer }
    | some room0 =>
      let health0 := decryptHealth room0.character_health
      let current_turn := room0.game_state.turn
      let order := room0.game_state.player_order
      if order = [] then
        { response := some "No players in game order", room := some room0,
          wrote := false, broadcasts := [], timer := timer }
      else if currentPlayerOf room0 ≠ req.username then
        { response := some "Not your turn", room := some room0, wrote := false,
          broadcasts := [], timer := timer }
      else
        let chat1 := room0.chat_log ++
          [{ message := req.username ++ " skipped their turn", turn := current_turn }]
        if 10 ≤ current_turn then
          let w := roundLimitWinnerC health0 room0.group1 room0.group2
          -- game over: broadcast (line 637, may KeyError) precedes the write
          match clients with
          | none =>
            { response := some "Error skipping turn: KeyError active_rooms",
              room := some room0, wrote := false, broadcasts := [], timer := timer }
          | some cs =>
            let roomF := { room0 with
              character_health := .enc health0
              chat_log := chat1 ++
                [{ message := "Game over! Winner: " ++ w, turn := current_turn }]
              game_state := { room0.game_state with
                status := "ended", winner := some w } }
            { response := none, room := some roomF, wrote := true,
              broadcasts := broadcastTo cs "game_ended", timer := timer }
        else
          let roomW := { room0 with
            character_health := .enc health0, chat_log := chat1 }
          let step := nextTurn roomW
          let roomAfter := step.fst.getD roomW
          match clients with
          | none =>
            { response := some "Error skipping turn: KeyError active_rooms",
              room := some roomAfter, wrote := true, broadcasts := [],
              timer := timer }
          | some cs =>
            let cn := step.snd
            { response := none, room := some roomAfter, wrote := true,
              broadcasts := broadcastTo cs "skip_made" ++
                broadcastTo cs "turn_started",
              timer := some
                { current_player := cn.map Prod.fst,
                  next_player := cn.map Prod.snd,
                  start_time := now, end_time := now + 60 } }

/-- The body of `remove_player` inside `handle_disconnect`
(socket_handlers.py lines 325-398), run when the 10-second disconnect timer
fires.  `roomKnown` is `disconnected_room in active_rooms` (the whole purge is
guarded by it); `clients` is `active_rooms[disconnected_room]` at firing time.
The `player_reconnected` flag computed at lines 327-333 is never consulted.
Membership in `character_health` (line 360) is tested on the STORED value,
i.e. on the encrypted wrapper whenever the document was written by any of the
normal paths.  Returns the stored document afterwards and the notifications
sent.  Note the health deletion does not set `room_changed` (lines 359-361). -/
def removePlayer (roomKnown : Bool) (stored : Option Room)
    (clients : List (String × String)) (username : String) :
    Option Room × List (String × String) :=
  if roomKnown = false then (stored, [])
  else
    match stored with
    | none => (none, [])
    | some room =>
      if room.game_state.status = "ended" then (some room, [])
      else
        let c1 := room.players.contains username
        let players2 := if c1 then room.players.erase username else room.players
        let c2 := (room.group1.map Prod.fst).contains username
        let g12 := if c2 then dictErase room.group1 username else room.group1
        let c3 := (room.group2.map Prod.fst).contains username
        let g22 := if c3 then dictErase room.group2 username else room.group2
        let health2 :=
          if healthStoreMember room.character_health username then
            match room.character_health with
            | .plain m => HealthStore.plain (dictErase m username)
            | .enc m => HealthStore.enc m
            -- on the wrapper the deletion would strip a wrapper key; usernames
            -- are never the literal strings "encrypted"/"data", so unreachable
          else room.character_health
        let c4 := room.ready_players.contains username
        let ready2 := if c4 then room.ready_players.erase username
                      else room.ready_players
        let c5 := room.game_state.player_order.contains username
        let order2 := if c5 then room.game_state.player_order.erase username
                      else room.game_state.player_order
        let changed := c1 || c2 || c3 || c4 || c5
        if changed then
          let room2 := { room with
            players := players2, group1 := g12, group2 := g22,
            ready_players := ready2, character_health := health2,
            game_state := { room.game_state with player_order := order2 } }
          (some room2, broadcastTo clients "update")
        else (some room, [])

/-- Process-local state relevant to one room: the stored document, whether
`room_code` is a key of `active_rooms`, the client list under that key, and the
usernames whose `(username, room_code)` disconnect timer is pending. -/
structure SysState where
  stored : Option Room
  roomKnown : Bool
  clients : List (String × String)
  pending : List String
deriving Repr, DecidableEq

/-- Update the sid of the first session record with the given username
(the `for ... break` loop of `on_join`, lines 94-100). -/
def updateFirstSid : List (String × String) → String → String →
    List (String × String)
  | [], _, _ => []
  | c :: rest, username, sid =>
      if c.snd = username then (sid, username) :: rest
      else c :: updateFirstSid rest username sid

/-- `on_join('join_room')` (socket_handlers.py lines 73-122): ensures the
`active_rooms` entry, cancels and deletes a pending disconnect timer for
`(username, room_code)`, updates the sid of the first matching session or
appends a new one, and broadcasts `new_player`.  The stored document is never
touched. -/
def joinSys (s : SysState) (username sid : String) :
    SysState × List (String × String) :=
  let clients0 := if s.roomKnown then s.clients else []
  let pending2 := s.pending.erase username
  let clients2 :=
    if (clients0.map Prod.snd).contains username then
      updateFirstSid clients0 username sid
    else clients0 ++ [(sid, username)]
  ({ stored := s.stored, roomKnown := true, clients := clients2,
     pending := pending2 },
   broadcastTo clients2 "new_player")

/-- `handle_disconnect` (socket_handlers.py lines 292-404): find the session by
sid, drop it from `active_rooms`, and (re)arm a 10-second disconnect timer for
the username.  The stored document is never touched. -/
def handleDisconnectSys (s : SysState) (sid : String) : SysState :=
  if s.roomKnown = false then s
  else
    match s.clients.find? (fun c => c.fst == sid) with
    | none => s
    | some c =>
      { s with
        clients := s.clients.erase c
        pending := if s.pending.contains c.snd then s.pending
                   else s.pending ++ [c.snd] }

/-- A disconnect timer for `username` firing: it runs `remove_player` only if
it is still pending (`threading.Timer.cancel` prevents a cancelled timer from
running), and removes itself from `disconnection_timers`. -/
def fireTimerSys (s : SysState) (username : String) :
    SysState × List (String × String) :=
  if username ∈ s.pending then
    let res := removePlayer s.roomKnown s.stored s.clients username
    ({ s with stored := res.fst, pending := s.pending.erase username }, res.snd)
  else (s, [])

/-- `on_reconnect_to_game` (game_handlers.py lines 763-874) as far as state is
concerned: cancels and deletes the pending disconnect timer; it performs no
database write (it only emits a `reconnection_sync` payload to the caller). -/
def reconnectSys (s : SysState) (username : String) : SysState :=
  { s with pending := s.pending.erase username }

/-- Modelled from the spec: the spec's reading of the all-dead test, under
which "a username absent from `character_health` is treated as alive" — every
member must have an entry and that entry must be `≤ 0`.  Stated only to be
compared against `groupAllDead`, which is translated from the code. -/
def groupAllDeadSpecReading (group : List (String × String))
    (health : List (String × Int)) : Bool :=
  group.all (fun kv =>
    match dictLookup health kv.fst with
    | some h => decide (h ≤ 0)
    | none => false)

/-- Concrete room for the C1 counterexample: started match, `A` about to kill
the cached next player `B`. -/
def roomKillNext : Room :=
  { players := ["A", "B", "C", "D"]
    group1 := [("A", "ka"), ("C", "ce")]
    group2 := [("B", "tor"), ("D", "dor")]
    ready_players := ["A", "B", "C", "D"]
    character_health := .enc [("A", 50), ("B", 30), ("C", 50), ("D", 50)]
    chat_log := []
    game_state := { status := "started", turn := 3,
                    player_order := ["A", "B", "C", "D"],
                    current_player := some "A", next_player := some "B" } }

/-- The killing blow of `A` against `B` in `roomKillNext`. -/
def reqKillNext : MoveRequest :=
  { username := "A", ability := "strike", target_user := "B",
    target_name := "tor", move_type := "a", value := 30,
    room_code := "1234", character := "ka" }

/-- Sessions connected to `roomKillNext`. -/
def clientsKillNext : List (String × String) :=
  [("s1", "A"), ("s2", "B"), ("s3", "C"), ("s4", "D")]

/-- Concrete fresh room for the C5 counterexample (as `create_room` builds it,
`turn = 1`), with both players ready and seated in opposite groups. -/
def roomFreshReady : Room :=
  { players := ["A", "B"], group1 := [("A", "Kara")], group2 := [("B", "Tor")],
    ready_players := ["A", "B"],
    character_health := .enc [("A", 50), ("B", 50)], chat_log := [],
    game_state := { status := "not started", turn := 1, player_order := [] } }

/-- Concrete started room at turn 10 for the C6 counterexample: two health
entries, so the claim's limit would be `2 * 15 = 30`. -/
def roomTurnTen : Room :=
  { players := ["A", "B"], group1 := [("A", "ka")], group2 := [("B", "tor")],
    ready_players := ["A", "B"],
    character_health := .enc [("A", 20), ("B", 30)], chat_log := [],
    game_state := { status := "started", turn := 10, player_order := ["A", "B"],
                    current_player := some "A", next_player := some "B" } }

/-- Concrete ENDED room for the C7 counterexample, with the sender still the
cached current player. -/
def roomEnded : Room :=
  { players := ["A", "B"], group1 := [("A", "ka")], group2 := [("B", "tor")],
    ready_players := ["A", "B"],
    character_health := .enc [("A", 50), ("B", 30)], chat_log := [],
    game_state := { status := "ended", turn := 3, player_order := ["A", "B"],
                    current_player := some "A", next_player := some "B",
                    winner := some "group1" } }

/-- A move request sent to `roomEnded` by its cached current player. -/
def reqOnEnded : MoveRequest :=
  { username := "A", ability := "mend", target_user := "B", target_name := "tor",
    move_type := "h", value := 5, room_code := "1", character := "ka" }

/-- Concrete started room whose stored `character_health` is the encrypted
wrapper (as every write path leaves it), for the C8 purge analysis. -/
def roomPurge : Room :=
  { players := ["alice", "bob"], group1 := [("alice", "ka")],
    group2 := [("bob", "tor")], ready_players := ["alice", "bob"],
    character_health := .enc [("alice", 30), ("bob", 50)], chat_log := [],
    game_state := { status := "started", turn := 2,
                    player_order := ["alice", "bob"],
                    current_player := some "alice", next_player := some "bob" } }

/-- Concrete started room for the C10 theorem: `A` (group1) targets `B`
(group2, health 30) with value 7 and an arbitrary non-attack move kind. -/
def roomHealTarget : Room :=
  { players := ["A", "B"], group1 := [("A", "ka")], group2 := [("B", "tor")],
    ready_players := ["A", "B"],
    character_health := .enc [("A", 50), ("B", 30)], chat_log := [],
    game_state := { status := "started", turn := 2, player_order := ["A", "B"],
                    current_player := some "A", next_player := some "B" } }

/-- The C10 request, parameterised by the move kind. -/
def reqHealTarget (mt : String) : MoveRequest :=
  { username := "A", ability := "mend", target_user := "B", target_name := "tor",
    move_type := mt, value := 7, room_code := "1", character := "ka" }

/-- Sessions for the two-player concrete rooms. -/
def clientsAB : List (String × String) := [("s1", "A"), ("s2", "B")]

/-- Concrete started room where `A` kills the only member of group2, for the
win-detection demonstration: group2 becomes all dead, group1 survives. -/
def roomLastKill : Room :=
  { players := ["A", "B"], group1 := [("A", "ka")], group2 := [("B", "tor")],
    ready_players := ["A", "B"],
    character_health := .enc [("A", 50), ("B", 10)], chat_log := [],
    game_state := { status := "started", turn := 4, player_order := ["A", "B"],
                    current_player := some "A", next_player := some "B" } }

/-- The killing blow of `A` against `B` in `roomLastKill`. -/
def reqLastKill : MoveRequest :=
  { username := "A", ability := "strike", target_user := "B",
    target_name := "tor", move_type := "a", value := 10,
    room_code := "1", character := "ka" }

/-- Concrete room with two living players for the scan witness. -/
def roomAliveAB : Room :=
  { players := ["A", "B"], group1 := [("A", "ka")], group2 := [("B", "tor")],
    ready_players := ["A", "B"],
    character_health := .plain [("A", 50), ("B", 40)], chat_log := [],
    game_state := { status := "started", turn := 1, player_order := ["A", "B"] } }

/-- Lookup after `d[k] = v` yields `v`. -/
theorem dictLookup_dictInsert_self {α : Type} (k : String) (v : α) :
    ∀ m : List (String × α), dictLookup (dictInsert m k v) k = some v
  | [] => by simp [dictLookup, dictInsert, List.find?_cons]
  | kv :: rest => by
    by_cases h : kv.fst = k
    · simp [dictInsert, h, dictLookup, List.find?_cons]
    · have hb : (kv.fst == k) = false := by simpa using h
      simp only [dictInsert, hb, if_false, Bool.false_eq_true]
      have ih := dictLookup_dictInsert_self k v rest
      simp only [dictLookup, List.find?_cons, hb] at ih ⊢
      exact ih

/-- `next_turn` writes back the same `status` and `winner` it read. -/
theorem nextTurn_preserves (r r2 : Room) (cn : Option (String × String))
    (h : nextTurn r = (some r2, cn)) :
    r2.game_state.status = r.game_state.status ∧
    r2.game_state.winner = r.game_state.winner := by
  simp only [nextTurn] at h
  by_cases h1 : r.game_state.status = "started"
  · rw [if_pos h1] at h
    by_cases h2 : r.game_state.player_order = []
    · rw [if_pos h2] at h; simp at h
    · rw [if_neg h2] at h
      by_cases h3 :
          r.game_state.player_order.filter
            (fun p => aliveIn (decryptHealth r.character_health) p) = []
      · rw [if_pos h3] at h; simp at h
      · rw [if_neg h3] at h
        rw [Prod.ext_iff] at h
        obtain ⟨ha, _⟩ := h
        cases Option.some.inj ha
        exact ⟨rfl, rfl⟩
  · rw [if_neg h1] at h; simp at h

/-- C2: for starting health `h ∈ [0, 50]` and value `v ≥ 0`, the move
resolution of `on_make_move` (`applyMoveHealth`, lines 354-364) yields
`max(0, h - v)` for an attack and `min(50, h + v)` for any other kind; both
results lie in `[0, 50]` and are monotonic in `h`. -/
theorem C2_apply_move_saturating (h v : Int)
    (hh0 : 0 ≤ h) (hh50 : h ≤ 50) (hv : 0 ≤ v) :
    applyMoveHealth "a" h v = max 0 (h - v) ∧
    (∀ mt : String, mt ≠ "a" → applyMoveHealth mt h v = min 50 (h + v)) ∧
    (0 ≤ applyMoveHealth "a" h v ∧ applyMoveHealth "a" h v ≤ 50) ∧
    (∀ mt : String, mt ≠ "a" →
      0 ≤ applyMoveHealth mt h v ∧ applyMoveHealth mt h v ≤ 50) ∧
    (∀ h2 : Int, 0 ≤ h2 → h2 ≤ h →
      applyMoveHealth "a" h2 v ≤ applyMoveHealth "a" h v ∧
      ∀ mt : String, mt ≠ "a" →
        applyMoveHealth mt h2 v ≤ applyMoveHealth mt h v) := by
  refine ⟨by simp [applyMoveHealth], fun mt hmt => by simp [applyMoveHealth, hmt],
    ⟨?_, ?_⟩, fun mt hmt => ⟨?_, ?_⟩, fun h2 h20 h2h => ⟨?_, fun mt hmt => ?_⟩⟩
  · simp only [applyMoveHealth, if_pos rfl]; omega
  · simp only [applyMoveHealth, if_pos rfl]; omega
  · simp only [applyMoveHealth, if_neg hmt]; omega
  · simp only [applyMoveHealth, if_neg hmt]; omega
  · simp only [applyMoveHealth, if_pos rfl]
    exact max_le_max le_rfl (by omega)
  · simp only [applyMoveHealth, if_neg hmt]
    exact min_le_min le_rfl (by omega)

/-- C2 witness at `h = 40`, `v = 25`. -/
theorem C2_apply_move_saturating_witness :
    applyMoveHealth "a" 40 25 = max 0 (40 - 25) ∧
    (∀ mt : String, mt ≠ "a" → applyMoveHealth mt 40 25 = min 50 (40 + 25)) ∧
    (0 ≤ applyMoveHealth "a" 40 25 ∧ applyMoveHealth "a" 40 25 ≤ 50) ∧
    (∀ mt : String, mt ≠ "a" →
      0 ≤ applyMoveHealth mt 40 25 ∧ applyMoveHealth mt 40 25 ≤ 50) ∧
    (∀ h2 : Int, 0 ≤ h2 → h2 ≤ 40 →
      applyMoveHealth "a" h2 25 ≤ applyMoveHealth "a" 40 25 ∧
      ∀ mt : String, mt ≠ "a" →
        applyMoveHealth mt h2 25 ≤ applyMoveHealth mt 40 25) :=
  C2_apply_move_saturating 40 25 (by decide) (by decide) (by decide)

/-- C3 counterexample: a group whose single member has NO `character_health`
entry.  The claim (following the spec) treats the absent member as alive, so
the group would not be all dead; the code's check (`groupAllDead`) counts it
as dead, so the two disagree at this input. -/
theorem C3_absent_health_counterexample :
    groupAllDead [("A", "ka")] [] = true ∧
    groupAllDeadSpecReading [("A", "ka")] [] = false ∧
    groupAllDead [("A", "ka")] [] ≠ groupAllDeadSpecReading [("A", "ka")] [] := by
  exact ⟨by decide, by decide, by decide⟩

/-- C3 (amended): in `on_make_move`'s win-condition evaluation a group counts
as all dead exactly when NO username in the group has a `character_health`
entry with value `> 0` — a username absent from `character_health` is treated
as DEAD, not alive; if group1 is all dead and group2 is not, the evaluation
yields winner `group2` (and symmetrically), which `on_make_move` records as
`status = ended`, `winner` = the surviving group, as the concrete run in the
last conjunct shows. -/
theorem C3_all_dead_amended :
    (∀ (g : List (String × String)) (health : List (String × Int)),
      groupAllDead g health = true ↔
        ∀ kv ∈ g, ∀ hh : Int, dictLookup health kv.fst = some hh → hh ≤ 0) ∧
    (∀ (turn : Nat) (g1 g2 : List (String × String)) (health : List (String × Int)),
      groupAllDead g1 health = true → groupAllDead g2 health = false →
        evaluateWin turn g1 g2 health = some "group2") ∧
    (∀ (turn : Nat) (g1 g2 : List (String × String)) (health : List (String × Int)),
      groupAllDead g1 health = false → groupAllDead g2 health = true →
        evaluateWin turn g1 g2 health = some "group1") ∧
    ((makeMove (some roomLastKill) (some clientsAB) none (fun _ => some "t") 0
        reqLastKill).room.map
      (fun r => (r.game_state.status, r.game_state.winner,
                 dictLookup (decryptHealth r.character_health) "B"))
      = some ("ended", some "group1", some 0)) := by
  refine ⟨?_, ?_, ?_, rfl⟩
  · intro g health
    simp only [groupAllDead, Bool.not_eq_true', List.any_eq_false]
    constructor
    · intro H kv hkv hh hl
      have h2 := H kv hkv
      rw [hl] at h2
      simpa using h2
    · intro H kv hkv
      cases hl : dictLookup health kv.fst with
      | none => simp
      | some hh => simpa using H kv hkv hh hl
  · intro turn g1 g2 health h1 _
    simp [evaluateWin, h1]
  · intro turn g1 g2 health h1 h2
    simp [evaluateWin, h1, h2]

/-- C3 amended witness: group1 = one member at 0 health, group2 = one living
member; the evaluation declares group2 the winner. -/
theorem C3_all_dead_amended_witness :
    evaluateWin 5 [("A", "ka")] [("B", "tor")] [("A", 0), ("B", 10)]
      = some "group2" :=
  C3_all_dead_amended.2.1 5 [("A", "ka")] [("B", "tor")] [("A", 0), ("B", 10)]
    (by decide) (by decide)

/-- C1 counterexample: in `roomKillNext` the current player `A` kills the
cached next player `B`.  The defeat branch recomputes `next_player` through
`find_next_active_player`, which re-reads the STALE stored document in which
`B` is still alive, so `next_player` stays `B`; `next_turn` then promotes the
dead `B` to `current_player`.  The resulting started room has
`current_player = B` with health `0` and `B ∉ player_order`, violating the
claimed invariant after a `make_move`. -/
theorem C1_make_move_counterexample :
    ((makeMove (some roomKillNext) (some clientsKillNext) none
        (fun _ => some "hits") 0 reqKillNext).room.map
      (fun r => (r.game_state.status, r.game_state.current_player,
                 r.game_state.player_order,
                 dictLookup (decryptHealth r.character_health) "B"))
      = some ("started", some "B", ["A", "C", "D"], some 0)) ∧
    ("B" : String) ∉ ["A", "C", "D"] := by
  exact ⟨rfl, by decide⟩

/-- C5 counterexample: a freshly created room has `turn = 1`, and
`start_first_turn` picks `player_order[turn % len] = player_order[1]`, not
`player_order[0]`, as the first `current_player`. -/
theorem C5_first_player_counterexample :
    ((startFirstTurn (checkAllReady roomFreshReady ["A", "B"]) 0).fst.map
      (fun r => r.game_state.current_player) = some (some "B")) ∧
    ["A", "B"].getD 0 "" = "A" ∧ (some "B" : Option String) ≠ some "A" := by
  exact ⟨rfl, rfl, by decide⟩

/-- C6 counterexample: `roomTurnTen` has 2 tracked health entries, so the
claimed limit is `2 * 15 = 30`, yet a skip at `turn = 10` already ends the
game; the winner is computed by matching health keys (usernames) against
character names, which never match, so both sums are 0 and the result is
`tie`. -/
theorem C6_round_limit_counterexample :
    ((skipTurn (some roomTurnTen) (some clientsAB) none 0
        { username := "A", room_code := "1" }).room.map
      (fun r => (r.game_state.status, r.game_state.winner))
      = some ("ended", some "tie")) ∧
    roomTurnTen.game_state.turn <
      (decryptHealth roomTurnTen.character_health).length * 15 := by
  exact ⟨rfl, by decide⟩

/-- C7 counterexample: `roomEnded` has `status = ended`, yet a `make_move`
from the cached current player succeeds: the handler returns success, writes
the document (healing the target from 30 to 35) and broadcasts — it checks
only `current_player`, never `status`. -/
theorem C7_status_check_counterexample :
    roomEnded.game_state.status ≠ "started" ∧
    (makeMove (some roomEnded) (some clientsAB) none (fun _ => some "tpl") 0
        reqOnEnded).response = none ∧
    (makeMove (some roomEnded) (some clientsAB) none (fun _ => some "tpl") 0
        reqOnEnded).wrote = true ∧
    ((makeMove (some roomEnded) (some clientsAB) none (fun _ => some "tpl") 0
        reqOnEnded).room.map
      (fun r => dictLookup (decryptHealth r.character_health) "B")
      = some (some 35)) ∧
    (makeMove (some roomEnded) (some clientsAB) none (fun _ => some "tpl") 0
        reqOnEnded).broadcasts ≠ [] := by
  exact ⟨by decide, rfl, rfl, rfl, by decide⟩

/-- C8: the disconnect purge at the failing input.  `roomPurge` stores
`character_health` as the encrypted wrapper (as every write path leaves it),
so the membership test `disconnected_username in room_data['character_health']`
sees only the wrapper keys and the health entry of `alice` survives the purge,
although `alice` is removed from `players`, both groups, `ready_players` and
`player_order`, and the remaining session is notified. -/
theorem C8_purge_keeps_encrypted_health :
    ((removePlayer true (some roomPurge) [("s2", "bob")] "alice").fst.map
      (fun r => (r.players, r.group1, r.group2, r.ready_players,
                 r.game_state.player_order,
                 dictLookup (decryptHealth r.character_health) "alice"))
      = some (["bob"], [], [("bob", "tor")], ["bob"], ["bob"], some 30)) ∧
    (removePlayer true (some roomPurge) [("s2", "bob")] "alice").snd
      = [("update", "bob")] := by
  exact ⟨rfl, rfl⟩

/-- C9: if a `join_room` or `reconnect_to_game` for a username arrives while
that username's disconnect timer is pending, the timer is cancelled (so its
later firing is a no-op and produces no notifications) and the stored room
document — hence `players`, `group1`, `group2`, `ready_players`,
`character_health` and `player_order` — is exactly its pre-disconnect value
(neither `handle_disconnect` nor the join/reconnect path writes it). -/
theorem C9_reconnect_cancels_purge (s : SysState) (u sid : String)
    (hnd : s.pending.Nodup) (_hpend : u ∈ s.pending) :
    u ∉ ((joinSys s u sid).fst).pending ∧
    ((joinSys s u sid).fst).stored = s.stored ∧
    (fireTimerSys (joinSys s u sid).fst u).fst.stored = s.stored ∧
    (fireTimerSys (joinSys s u sid).fst u).snd = [] ∧
    u ∉ (reconnectSys s u).pending ∧
    (reconnectSys s u).stored = s.stored ∧
    (fireTimerSys (reconnectSys s u) u).fst.stored = s.stored := by
  have herase : u ∉ s.pending.erase u := hnd.not_mem_erase
  have hjp : ((joinSys s u sid).fst).pending = s.pending.erase u := rfl
  have hjs : ((joinSys s u sid).fst).stored = s.stored := rfl
  refine ⟨hjp ▸ herase, hjs, ?_, ?_, herase, rfl, ?_⟩
  · simp only [fireTimerSys, hjp]
    rw [if_neg herase]
    exact hjs
  · simp only [fireTimerSys, hjp]
    rw [if_neg herase]
  · simp only [fireTimerSys, reconnectSys]
    rw [if_neg herase]

/-- C9 witness: a concrete state with a pending timer for `alice`. -/
theorem C9_reconnect_cancels_purge_witness :
    "alice" ∉ ((joinSys
        { stored := some roomPurge, roomKnown := true,
          clients := [("s2", "bob")], pending := ["alice"] } "alice" "s9").fst).pending ∧
    ((joinSys
        { stored := some roomPurge, roomKnown := true,
          clients := [("s2", "bob")], pending := ["alice"] } "alice" "s9").fst).stored
      = some roomPurge ∧
    (fireTimerSys (joinSys
        { stored := some roomPurge, roomKnown := true,
          clients := [("s2", "bob")], pending := ["alice"] } "alice" "s9").fst
        "alice").fst.stored = some roomPurge ∧
    (fireTimerSys (joinSys
        { stored := some roomPurge, roomKnown := true,
          clients := [("s2", "bob")], pending := ["alice"] } "alice" "s9").fst
        "alice").snd = [] ∧
    "alice" ∉ (reconnectSys
        { stored := some roomPurge, roomKnown := true,
          clients := [("s2", "bob")], pending := ["alice"] } "alice").pending ∧
    (reconnectSys
        { stored := some roomPurge, roomKnown := true,
          clients := [("s2", "bob")], pending := ["alice"] } "alice").stored
      = some roomPurge ∧
    (fireTimerSys (reconnectSys
        { stored := some roomPurge, roomKnown := true,
          clients := [("s2", "bob")], pending := ["alice"] } "alice")
        "alice").fst.stored = some roomPurge :=
  C9_reconnect_cancels_purge
    { stored := some roomPurge, roomKnown := true,
      clients := [("s2", "bob")], pending := ["alice"] } "alice" "s9"
    (by decide) (by decide)

/-- Replacing the stored health value does not change how the current player
is computed (it reads only `game_state`). -/
theorem currentPlayerOf_set_health (r : Room) (hs : HealthStore) :
    currentPlayerOf { r with character_health := hs } = currentPlayerOf r := rfl

/-- C7 (amended): `on_make_move` and `on_skip_turn` validate only the sender
against the current player — the match status is never checked (see the
counterexample).  For every request (passing field validation, room found,
`player_order` non-empty) whose sender is NOT the current player, both
handlers return the not-your-turn error payload to the requester only, with
no broadcast, no database write, and the turn-timer entry unchanged. -/
theorem C7_turn_violation_amended (room0 : Room)
    (clients : Option (List (String × String))) (timer : Option TimerEntry)
    (chatOf : String → Option String) (now : Nat)
    (req : MoveRequest) (sreq : SkipRequest)
    (hfm : pyAll [req.username, req.ability, req.target_name, req.move_type,
                  req.room_code, req.character] = true)
    (hfs : pyAll [sreq.username, sreq.room_code] = true)
    (ho : room0.game_state.player_order ≠ [])
    (hcm : currentPlayerOf room0 ≠ req.username)
    (hcs : currentPlayerOf room0 ≠ sreq.username) :
    makeMove (some room0) clients timer chatOf now req =
      { response := some "Not your turn", room := some room0, wrote := false,
        broadcasts := [], timer := timer } ∧
    skipTurn (some room0) clients timer now sreq =
      { response := some "Not your turn", room := some room0, wrote := false,
        broadcasts := [], timer := timer } := by
  constructor
  · simp [makeMove, hfm, ho, hcm, currentPlayerOf_set_health]
  · simp [skipTurn, hfs, ho, hcs]

/-- C7 amended witness: on `roomTurnTen` (current player `A`) requests from
`B` are rejected without any state change. -/
theorem C7_turn_violation_amended_witness :
    makeMove (some roomTurnTen) (some clientsAB) none (fun _ => some "t") 0
      { username := "B", ability := "strike", target_user := "A",
        target_name := "ka", move_type := "a", value := 5,
        room_code := "1", character := "tor" } =
      { response := some "Not your turn", room := some roomTurnTen,
        wrote := false, broadcasts := [], timer := none } ∧
    skipTurn (some roomTurnTen) (some clientsAB) none 0
      { username := "B", room_code := "1" } =
      { response := some "Not your turn", room := some roomTurnTen,
        wrote := false, broadcasts := [], timer := none } :=
  C7_turn_violation_amended roomTurnTen (some clientsAB) none
    (fun _ => some "t") 0
    { username := "B", ability := "strike", target_user := "A",
      target_name := "ka", move_type := "a", value := 5,
      room_code := "1", character := "tor" }
    { username := "B", room_code := "1" }
    (by decide) (by decide) (by decide) (by decide) (by decide)

/-- Whether or not `next_turn` managed to write, the document afterwards has
the same `status` and `winner`. -/
theorem nextTurn_getD_preserves (r : Room) :
    ((nextTurn r).fst.getD r).game_state.status = r.game_state.status ∧
    ((nextTurn r).fst.getD r).game_state.winner = r.game_state.winner := by
  rcases hnt : nextTurn r with ⟨w, cn⟩
  cases w with
  | none => simp
  | some r2 =>
    have h := nextTurn_preserves r r2 cn hnt
    simp [h.1, h.2]

/-- C6 (amended): `on_skip_turn`, invoked by the current player, ends the game
exactly when `turn ≥ 10` (a hard-coded limit, not
`len(character_health) * 15`); at the limit the winner is computed by
`roundLimitWinnerC`, which sums each health entry into the group whose
character NAMES contain the entry's key — since health is keyed by username,
entries matching no character name count toward neither group (so with
username-keyed health both sums are 0 and the winner is `tie`).  Below the
limit the handler does not end the game: `status` and `winner` are written
back unchanged while the turn advances. -/
theorem C6_skip_turn_amended (room0 : Room) (cs : List (String × String))
    (timer : Option TimerEntry) (now : Nat) (sreq : SkipRequest)
    (hf : pyAll [sreq.username, sreq.room_code] = true)
    (ho : room0.game_state.player_order ≠ [])
    (hc : currentPlayerOf room0 = sreq.username) :
    (10 ≤ room0.game_state.turn →
      (skipTurn (some room0) (some cs) timer now sreq).wrote = true ∧
      (skipTurn (some room0) (some cs) timer now sreq).room.map
          (fun r => (r.game_state.status, r.game_state.winner)) =
        some ("ended", some (roundLimitWinnerC
          (decryptHealth room0.character_health) room0.group1 room0.group2))) ∧
    (room0.game_state.turn < 10 →
      (skipTurn (some room0) (some cs) timer now sreq).room.map
          (fun r => (r.game_state.status, r.game_state.winner)) =
        some (room0.game_state.status, room0.game_state.winner)) := by
  constructor
  · intro h10
    constructor
    · simp [skipTurn, hf, ho, hc, h10]
    · simp [skipTurn, hf, ho, hc, h10]
  · intro hlt
    have h10 : ¬ 10 ≤ room0.game_state.turn := by omega
    simp [skipTurn, hf, ho, hc, h10]
    exact ⟨(nextTurn_getD_preserves _).1, (nextTurn_getD_preserves _).2⟩

/-- C6 amended witness: instantiated at `roomTurnTen` (turn = 10), whose
character-name-matched sums are both 0, giving winner `tie`. -/
theorem C6_skip_turn_amended_witness :
    (10 ≤ roomTurnTen.game_state.turn →
      (skipTurn (some roomTurnTen) (some clientsAB) none 0
          { username := "A", room_code := "1" }).wrote = true ∧
      (skipTurn (some roomTurnTen) (some clientsAB) none 0
          { username := "A", room_code := "1" }).room.map
          (fun r => (r.game_state.status, r.game_state.winner)) =
        some ("ended", some (roundLimitWinnerC
          (decryptHealth roomTurnTen.character_health)
          roomTurnTen.group1 roomTurnTen.group2))) ∧
    (roomTurnTen.game_state.turn < 10 →
      (skipTurn (some roomTurnTen) (some clientsAB) none 0
          { username := "A", room_code := "1" }).room.map
          (fun r => (r.game_state.status, r.game_state.winner)) =
        some (roomTurnTen.game_state.status, roomTurnTen.game_state.winner)) :=
  C6_skip_turn_amended roomTurnTen clientsAB none 0
    { username := "A", room_code := "1" } (by decide) (by decide) (by decide)

/-- C5 (amended): `check_all_ready` starts the match exactly when `players`
has at least 2 members, `group1` and `group2` are each non-empty, and
`ready_players` set-equals `players` (the check runs after `press_ready`
events); on start `player_order` becomes the drawn shuffle of `players` (a
permutation), `status` becomes `started`, and the first turn's
`current_player`, assigned by `start_first_turn`, is
`player_order[turn % len(player_order)]` — for a fresh room (`turn = 1` from
`create_room`) that is `player_order[1]`, NOT `player_order[0]`. -/
theorem C5_match_start_amended (room : Room) (shuffled : List String) (now : Nat)
    (hperm : shuffled.Perm room.players) :
    ((checkAllReady room shuffled).isSome ↔
      (2 ≤ room.players.length ∧ room.group1 ≠ [] ∧ room.group2 ≠ [] ∧
       ∀ x, x ∈ room.ready_players ↔ x ∈ room.players)) ∧
    (∀ r2, checkAllReady room shuffled = some r2 →
      r2.game_state.status = "started" ∧
      r2.game_state.player_order = shuffled ∧
      r2.game_state.player_order.Perm room.players ∧
      (shuffled ≠ [] →
        (startFirstTurn (some r2) now).fst.map
            (fun r3 => r3.game_state.current_player) =
          some (some (shuffled.getD
            (room.game_state.turn % shuffled.length) "")))) := by
  constructor
  · unfold checkAllReady
    split_ifs with h1 h2 h3 h4
    · simp only [Option.isSome_none, Bool.false_eq_true, false_iff]
      intro h
      rw [h1] at h
      simp at h
    · simp only [Option.isSome_none, Bool.false_eq_true, false_iff]
      intro h
      omega
    · simp only [Option.isSome_none, Bool.false_eq_true, false_iff]
      intro h
      rcases h3 with h3 | h3
      · exact h.2.1 (List.length_eq_zero.mp (by omega))
      · exact h.2.2.1 (List.length_eq_zero.mp (by omega))
    · simp only [Option.isSome_some, true_iff]
      push_neg at h3
      refine ⟨by omega, ?_, ?_, ?_⟩
      · intro he; rw [he] at h3; simp at h3
      · intro he; rw [he] at h3; simp at h3
      · intro x
        rcases h4 with ⟨ha, hb⟩
        rw [List.all_eq_true] at ha hb
        constructor
        · intro hx; simpa using ha x hx
        · intro hx; simpa using hb x hx
    · simp only [Option.isSome_none, Bool.false_eq_true, false_iff]
      intro h
      apply h4
      constructor
      · simp only [List.all_eq_true]
        intro x hx
        have hh := (h.2.2.2 x).mp hx
        simpa using hh
      · simp only [List.all_eq_true]
        intro x hx
        have hh := (h.2.2.2 x).mpr hx
        simpa using hh
  · intro r2 hr2
    unfold checkAllReady at hr2
    split_ifs at hr2
    have heq := Option.some.inj hr2
    subst heq
    refine ⟨rfl, rfl, hperm, ?_⟩
    intro hne
    simp [startFirstTurn, hne]

/-- C5 amended witness: `roomFreshReady` with the identity shuffle starts,
and the first current player is `player_order[1 % 2] = "B"`. -/
theorem C5_match_start_amended_witness :
    (((checkAllReady roomFreshReady ["A", "B"]).isSome ↔
      (2 ≤ roomFreshReady.players.length ∧ roomFreshReady.group1 ≠ [] ∧
       roomFreshReady.group2 ≠ [] ∧
       ∀ x, x ∈ roomFreshReady.ready_players ↔ x ∈ roomFreshReady.players)) ∧
    (∀ r2, checkAllReady roomFreshReady ["A", "B"] = some r2 →
      r2.game_state.status = "started" ∧
      r2.game_state.player_order = ["A", "B"] ∧
      r2.game_state.player_order.Perm roomFreshReady.players ∧
      (["A", "B"] ≠ ([] : List String) →
        (startFirstTurn (some r2) 0).fst.map
            (fun r3 => r3.game_state.current_player) =
          some (some (["A", "B"].getD
            (roomFreshReady.game_state.turn % (["A", "B"] : List String).length)
            ""))))) :=
  C5_match_start_amended roomFreshReady ["A", "B"] 0 (by decide)

/-- C1 (amended): the claimed invariant survives `next_turn` provided the
cached `next_player` is alive: for a started room whose cached `next_player`
is present in `player_order` and passes the liveness check, `next_turn`
writes a room whose `player_order` is non-empty and free of dead usernames
and whose `current_player` is an element of it.  The unrestricted claim is
false: when `make_move` defeats the cached next player, the stale re-read in
`find_next_active_player` lets the dead player become `current_player`
outside `player_order` (see the counterexample). -/
theorem C1_next_turn_invariant (room : Room) (np : String)
    (hst : room.game_state.status = "started")
    (hnp : room.game_state.next_player = some np)
    (ha : aliveIn (decryptHealth room.character_health) np = true)
    (hm : np ∈ room.game_state.player_order) :
    ∃ r c n, nextTurn room = (some r, some (c, n)) ∧
      r.game_state.status = "started" ∧
      r.game_state.player_order ≠ [] ∧
      r.game_state.current_player = some c ∧
      c ∈ r.game_state.player_order ∧
      ∀ p ∈ r.game_state.player_order,
        aliveIn (decryptHealth r.character_health) p = true := by
  have horder : room.game_state.player_order ≠ [] := List.ne_nil_of_mem hm
  have hmem2 : np ∈ room.game_state.player_order.filter
      (fun p => aliveIn (decryptHealth room.character_health) p) :=
    List.mem_filter.mpr ⟨hm, ha⟩
  have horder2 : room.game_state.player_order.filter
      (fun p => aliveIn (decryptHealth room.character_health) p) ≠ [] :=
    List.ne_nil_of_mem hmem2
  simp only [nextTurn, if_pos hst, if_neg horder, if_neg horder2, hnp]
  refine ⟨_, np, _, rfl, hst, horder2, rfl, hmem2, ?_⟩
  intro p hp
  exact (List.mem_filter.mp hp).2

/-- C1 amended witness: `roomLastKill` is started with a living cached next
player `B`. -/
theorem C1_next_turn_invariant_witness :
    ∃ r c n, nextTurn roomLastKill = (some r, some (c, n)) ∧
      r.game_state.status = "started" ∧
      r.game_state.player_order ≠ [] ∧
      r.game_state.current_player = some c ∧
      c ∈ r.game_state.player_order ∧
      ∀ p ∈ r.game_state.player_order,
        aliveIn (decryptHealth r.character_health) p = true :=
  C1_next_turn_invariant roomLastKill "B" (by decide) (by decide) (by decide)
    (by decide)

/-- C10: `on_make_move` performs no validation of the move kind: any
`type` other than the exact string `"a"` (and non-empty, so that field
validation passes) is resolved as a heal, setting the target's health to
`min(50, h + value)` — never decreasing it for `value ≥ 0` and `h ≤ 50` —
and the handler reports success rather than an unknown-kind error, as the
concrete run with an arbitrary non-attack kind shows
(`37 = min 50 (30 + 7)`). -/
theorem C10_unknown_kind_heals (mt : String) (h v : Int)
    (hmt : mt ≠ "a") (hne : mt ≠ "") (hh : h ≤ 50) (hv : 0 ≤ v) :
    applyMoveHealth mt h v = min 50 (h + v) ∧
    h ≤ applyMoveHealth mt h v ∧
    (makeMove (some roomHealTarget) (some clientsAB) none (fun _ => some "tpl")
      0 (reqHealTarget mt)).response = none ∧
    (makeMove (some roomHealTarget) (some clientsAB) none (fun _ => some "tpl")
      0 (reqHealTarget mt)).room.map
        (fun r => dictLookup (decryptHealth r.character_health) "B")
      = some (some 37) := by
  have happ : applyMoveHealth mt 30 7 = 37 := by
    simp [applyMoveHealth, hmt]
  have hf : pyAll ["A", "mend", "tor", mt, "1", "ka"] = true := by
    simp [pyAll, hne]
  refine ⟨by simp [applyMoveHealth, hmt], ?_, ?_, ?_⟩
  · simp only [applyMoveHealth, if_neg hmt]
    exact le_min (by omega) (by omega)
  · simp [makeMove, reqHealTarget, roomHealTarget, hf, happ, currentPlayerOf,
      dictLookup, dictInsert, aliveIn, evaluateWin, groupAllDead,
      roundLimitWinnerU, nextTurn, findNextActivePlayer, nextIdx, substrB,
      broadcastTo, decryptHealth]
  · simp [makeMove, reqHealTarget, roomHealTarget, hf, happ, currentPlayerOf,
      dictLookup, dictInsert, aliveIn, evaluateWin, groupAllDead,
      roundLimitWinnerU, nextTurn, findNextActivePlayer, nextIdx, substrB,
      broadcastTo, decryptHealth]

/-- C10 witness at kind `"b"`, `h = 30`, `v = 7`. -/
theorem C10_unknown_kind_heals_witness :
    applyMoveHealth "b" 30 7 = min 50 (30 + 7) ∧
    (30 : Int) ≤ applyMoveHealth "b" 30 7 ∧
    (makeMove (some roomHealTarget) (some clientsAB) none (fun _ => some "tpl")
      0 (reqHealTarget "b")).response = none ∧
    (makeMove (some roomHealTarget) (some clientsAB) none (fun _ => some "tpl")
      0 (reqHealTarget "b")).room.map
        (fun r => dictLookup (decryptHealth r.character_health) "B")
      = some (some 37) :=
  C10_unknown_kind_heals "b" 30 7 (by decide) (by decide) (by decide) (by decide)

/-- Conversion of the Python index arithmetic `(current_index + i) % len` to
natural-number arithmetic when the current player was found
(`current_index ≥ 0`). -/
theorem nextIdx_natCast (k i n : Nat) : nextIdx (k : Int) i n = (k + i) % n := by
  unfold nextIdx
  norm_cast

/-- C4: when the current player occurs in `player_order` and at least one
other entry is a (non-empty) username with `character_health > 0`,
`find_next_active_player` returns a username that passes the liveness check
(present in `character_health` with health `> 0` — never a dead username),
and that username is precisely the first live username reached by scanning
forward from the current player's position with wraparound: it sits `i` steps
ahead (`1 ≤ i ≤ len`) and every strictly earlier step of the scan fails the
liveness check. -/
theorem C4_find_next_active_player (room : Room) (current : String) (order : List String)
    (hcur : current ∈ order)
    (hex : ∃ p ∈ order, p ≠ current ∧
      aliveIn (decryptHealth room.character_health) p = true) :
    aliveIn (decryptHealth room.character_health)
      (findNextActivePlayer (some room) current order) = true ∧
    ∃ k i, order.indexOf? current = some k ∧ 1 ≤ i ∧ i ≤ order.length ∧
      findNextActivePlayer (some room) current order =
        order.getD ((k + i) % order.length) "" ∧
      ∀ j, 1 ≤ j → j < i →
        aliveIn (decryptHealth room.character_health)
          (order.getD ((k + j) % order.length) "") = false := by
  obtain ⟨p, hpmem, hpne, hpal⟩ := hex
  have hn : 1 < order.length := by
    rcases order with _ | ⟨a, _ | ⟨b, t⟩⟩
    · simp at hcur
    · simp at hcur hpmem
      exact absurd (hpmem.trans hcur.symm) hpne
    · simp [Nat.lt_add_one_iff]
  have hk0 : order.findIdx? (fun x => x == current) = some
      (order.findIdx (fun x => x == current)) :=
    List.findIdx?_eq_some_of_exists ⟨current, hcur, by simp⟩
  obtain ⟨hklt, hkbeq, hkfirst⟩ := List.findIdx?_eq_some_iff_getElem.mp hk0
  have hkc : order[order.findIdx (fun x => x == current)] = current := by
    simpa using hkbeq
  have hidx : order.indexOf? current = some
      (order.findIdx (fun x => x == current)) := hk0
  obtain ⟨j, hjlt, hgj⟩ := List.getElem_of_mem hpmem
  have hjk : j ≠ order.findIdx (fun x => x == current) := by
    intro hjeq
    subst hjeq
    apply hpne
    rw [← hgj]
    exact hkc
  have hexists : ∃ x ∈ List.range' 1 order.length, (fun i =>
      aliveIn (decryptHealth room.character_health)
        (order.getD ((order.findIdx (fun x => x == current) + i)
          % order.length) "")) x = true := by
    refine ⟨if order.findIdx (fun x => x == current) < j
        then j - order.findIdx (fun x => x == current)
        else j + order.length - order.findIdx (fun x => x == current), ?_, ?_⟩
    · rw [List.mem_range'_1]
      constructor
      · split_ifs <;> omega
      · split_ifs <;> omega
    · have hmod : (order.findIdx (fun x => x == current) +
          (if order.findIdx (fun x => x == current) < j
           then j - order.findIdx (fun x => x == current)
           else j + order.length - order.findIdx (fun x => x == current)))
          % order.length = j := by
        split_ifs with hkj
        · have he : order.findIdx (fun x => x == current) +
              (j - order.findIdx (fun x => x == current)) = j := by omega
          rw [he]
          exact Nat.mod_eq_of_lt hjlt
        · have he : order.findIdx (fun x => x == current) +
              (j + order.length - order.findIdx (fun x => x == current)) =
              j + order.length := by omega
          rw [he, Nat.add_mod_right]
          exact Nat.mod_eq_of_lt hjlt
      simp only [hmod]
      have hgd : order.getD j "" = p := by
        rw [List.getD_eq_getElem?_getD, List.getElem?_eq_getElem hjlt, hgj]
        rfl
      rw [hgd]
      exact hpal
  have hsome : ((List.range' 1 order.length).find? (fun i =>
      aliveIn (decryptHealth room.character_health)
        (order.getD ((order.findIdx (fun x => x == current) + i)
          % order.length) ""))).isSome :=
    List.find?_isSome.mpr hexists
  obtain ⟨i, hfind⟩ := Option.isSome_iff_exists.mp hsome
  obtain ⟨hpredi, as, bs, hsplit, hfail⟩ := List.find?_eq_some.mp hfind
  have hlen : order.length = as.length + (bs.length + 1) := by
    have hl := congrArg List.length hsplit
    simp at hl
    omega
  have hasl : as.length < order.length := by omega
  have hi : i = 1 + as.length := by
    have h1 : (List.range' 1 order.length)[as.length]? = some (1 + as.length) := by
      rw [List.getElem?_eq_getElem (by simpa using hasl)]
      simp [List.getElem_range'_1]
    rw [hsplit, List.getElem?_append_right (le_refl as.length)] at h1
    simpa using h1
  have hfirst : ∀ j2, 1 ≤ j2 → j2 < i →
      aliveIn (decryptHealth room.character_health)
        (order.getD ((order.findIdx (fun x => x == current) + j2)
          % order.length) "") = false := by
    intro j2 hj1 hj2
    have hj2m : j2 - 1 < as.length := by omega
    have hj2r : j2 - 1 < order.length := by omega
    have h1 : (List.range' 1 order.length)[j2-1]? = some (1 + (j2 - 1)) := by
      rw [List.getElem?_eq_getElem (by simpa using hj2r)]
      simp [List.getElem_range'_1]
    rw [hsplit, List.getElem?_append_left hj2m] at h1
    have hj2eq : 1 + (j2 - 1) = j2 := by omega
    rw [hj2eq] at h1
    have hj2mem : j2 ∈ as := List.getElem?_mem h1
    have := hfail j2 hj2mem
    simpa using this
  have hresult : findNextActivePlayer (some room) current order =
      order.getD ((order.findIdx (fun x => x == current) + i)
        % order.length) "" := by
    unfold findNextActivePlayer
    rw [if_neg (by omega : ¬ order.length ≤ 1)]
    simp only [hidx, nextIdx_natCast, hfind]
  constructor
  · rw [hresult]
    exact hpredi
  · refine ⟨order.findIdx (fun x => x == current), i, hidx, by omega, by omega,
      hresult, hfirst⟩

/-- C4 witness: order `["A", "B"]`, current `A`, both alive; the scan returns
`B`, one step ahead. -/
theorem C4_find_next_active_player_witness :
    aliveIn (decryptHealth roomAliveAB.character_health)
      (findNextActivePlayer (some roomAliveAB) "A" ["A", "B"]) = true ∧
    ∃ k i, ["A", "B"].indexOf? "A" = some k ∧ 1 ≤ i ∧
      i ≤ (["A", "B"] : List String).length ∧
      findNextActivePlayer (some roomAliveAB) "A" ["A", "B"] =
        ["A", "B"].getD ((k + i) % (["A", "B"] : List String).length) "" ∧
      ∀ j, 1 ≤ j → j < i →
        aliveIn (decryptHealth roomAliveAB.character_health)
          (["A", "B"].getD ((k + j) % (["A", "B"] : List String).length) "")
          = false :=
  C4_find_next_active_player roomAliveAB "A" ["A", "B"] (by decide)
    ⟨"B", by decide, by decide, by decide⟩
